import Mathlib

/-!
Verification development for the subscription lifecycle and billing
orchestration core of the skeeter-turf backend.

The Python source is shallowly embedded: database rows become structures,
each handler becomes a pure function from its inputs (request, database
contents, gateway outcomes) to its outputs (response, updated rows,
side-effect records).  Money is modelled with exact rationals; Python's
`round(x, 2)` (round-half-to-even on two decimals) and `int(x)`
(truncation toward zero) are modelled explicitly.
-/

/-- Python `needle.isPrefix`-style check on character lists:
`strStarts needle hay` is true when `hay` begins with `needle`. -/
def strStarts : List Char → List Char → Bool
  | [], _ => true
  | _ :: _, [] => false
  | a :: as, b :: bs => a == b && strStarts as bs

/-- Python's `needle in haystack` on character lists. -/
def strHasSub (haystack needle : List Char) : Bool :=
  match haystack with
  | [] => strStarts needle []
  | c :: rest => strStarts needle (c :: rest) || strHasSub rest needle

/-- Lower-cased character list of a string, modelling Python `str.lower()`. -/
def lowerStr (s : String) : List Char := s.data.map Char.toLower

/-- Python `needle.lower() in haystack.lower()` on strings. -/
def pyInLower (needle haystack : String) : Bool :=
  strHasSub (lowerStr haystack) (lowerStr needle)

/-- Python `str.isdigit()`: nonempty and all characters are digits. -/
def pyIsDigit (s : String) : Bool :=
  !s.data.isEmpty && s.data.all Char.isDigit

/-- Row of `subscription_plan_schedules` (models/subscription_schedule.py). -/
structure SubscriptionPlanSchedule where
  plan_name : String
  start_month : ℕ
  end_month : ℕ
deriving DecidableEq, Repr

/-- Method `SubscriptionPlanSchedule.is_month_active` from
models/subscription_schedule.py: inclusive range test, with wrap-around
semantics when `start_month > end_month`. -/
def SubscriptionPlanSchedule.is_month_active
    (s : SubscriptionPlanSchedule) (month : ℕ) : Bool :=
  if s.start_month ≤ s.end_month then
    decide (s.start_month ≤ month ∧ month ≤ s.end_month)
  else
    decide (month ≥ s.start_month ∨ month ≤ s.end_month)

/-- Month visited at offset `i` of the forward scan in
`get_next_active_month` (subscription_scheduler.py line 187):
`((from_month - 1 + i) % 12) + 1`. -/
def monthAt (from_month i : ℕ) : ℕ :=
  (from_month - 1 + i) % 12 + 1

/-- Loop body of `get_next_active_month` (subscription_scheduler.py lines
186-189): scan offsets `i, i+1, ...` while fuel remains, returning the
first visited month that is active. -/
def next_active_scan (s : SubscriptionPlanSchedule) (from_month : ℕ) :
    ℕ → ℕ → Option ℕ
  | _, 0 => none
  | i, fuel + 1 =>
    let cm := monthAt from_month i
    if s.is_month_active cm then some cm
    else next_active_scan s from_month (i + 1) fuel

/-- Function `get_next_active_month` from subscription_scheduler.py:
first active month in a 12-month forward scan starting at `from_month`
inclusive, falling back to `from_month` itself. -/
def get_next_active_month (s : SubscriptionPlanSchedule) (from_month : ℕ) : ℕ :=
  (next_active_scan s from_month 0 12).getD from_month

/-- Calendar date, modelling Python `datetime(year, month, day)`. -/
structure DateYMD where
  year : ℤ
  month : ℕ
  day : ℕ
deriving DecidableEq, Repr

/-- Function `get_schedule_for_plan` from subscription_scheduler.py:
first schedule whose `plan_name` contains the argument, case-insensitively
(the SQL `ilike` pattern match). -/
def get_schedule_for_plan (schedules : List SubscriptionPlanSchedule)
    (plan_name : String) : Option SubscriptionPlanSchedule :=
  schedules.find? (fun s => pyInLower plan_name s.plan_name)

/-- Function `calculate_subscription_start_date` from
subscription_scheduler.py: `none` models the Python `None` return (start
immediately); otherwise the first day of the next active month, rolled
into the following year when that month number is below the signup
month. -/
def calculate_subscription_start_date
    (schedules : List SubscriptionPlanSchedule)
    (plan_name : String) (signup_date : DateYMD) : Option DateYMD :=
  let current_month := signup_date.month
  let current_year := signup_date.year
  match get_schedule_for_plan schedules plan_name with
  | none => none
  | some schedule =>
    if schedule.is_month_active current_month then none
    else
      let next_month := get_next_active_month schedule current_month
      let next_year :=
        if next_month < current_month then current_year + 1 else current_year
      some ⟨next_year, next_month, 1⟩

/-- Python `round(x, 2)` on a rational, modelled as round-half-to-even on
cents (Python 3 banker's rounding). -/
def roundHalfEvenZ (x : ℚ) : ℤ :=
  let f : ℤ := x.floor
  let r : ℚ := x - f
  if r < 1 / 2 then f
  else if 1 / 2 < r then f + 1
  else if f % 2 = 0 then f else f + 1

/-- Two-decimal rounding `round(x, 2)`. -/
def pyRound2 (x : ℚ) : ℚ := (roundHalfEvenZ (x * 100) : ℚ) / 100

/-- Python `int(x)` on a rational: truncation toward zero. -/
def pyInt (q : ℚ) : ℤ := q.num / q.den

/-- Row of `subscription_plans` (models/subscription.py). -/
structure SubscriptionPlan where
  id : ℕ
  plan_name : String
  plan_cost : ℚ
  plan_variation_id : String
deriving DecidableEq, Repr

/-- Row of `item_variations` (models/subscription.py, with the
`billing_type` column added by scripts/add_billing_type.py). -/
structure ItemVariation where
  item_type : String
  name : String
  variation_id : String
  price : ℚ
  billing_type : String
deriving DecidableEq, Repr

/-- Order line item dict as built in subscription_logic.py: either a
catalog reference, optionally with an explicit `base_price_money`, or an
ad-hoc named item. -/
structure LineItem where
  catalog_object_id : Option String := none
  name : Option String := none
  base_price_cents : Option ℤ := none
deriving DecidableEq, Repr

/-- Catalog-backed tables read by the billing code. -/
structure Db where
  plans : List SubscriptionPlan
  items : List ItemVariation
  schedules : List SubscriptionPlanSchedule
deriving Repr

/-- Successful payload of `prepare_subscription_order_items`. -/
structure OrderData where
  line_items : List LineItem
  subtotal : ℚ
  processing_fee : ℚ
  total_amount : ℚ
deriving DecidableEq, Repr

/-- Result of `prepare_subscription_order_items`: the Python function
returns either `{"success": False, "error": ...}` or a success dict. -/
inductive PrepResult
  | failure (error : String)
  | success (data : OrderData)
deriving DecidableEq, Repr

/-- Function `prepare_subscription_order_items` from
utils/subscription_logic.py.  `prices` models the external
`get_catalog_prices` lookup (`prices.get(vid, 0)` becomes total
application with a default of 0 supplied by the caller's map). -/
def prepare_subscription_order_items (db : Db) (prices : String → ℚ)
    (plan_variation_id : String) (addons : List String) : PrepResult :=
  match db.plans.find? (fun p => p.plan_variation_id == plan_variation_id) with
  | none => .failure "Subscription plan for variation not found in database."
  | some plan_db =>
    match db.items.find?
        (fun i => i.item_type == "PLAN" && i.name == plan_db.plan_name) with
    | none => .failure "Order template item for plan not found."
    | some plan_item =>
      let db_addons :=
        if addons.isEmpty then []
        else db.items.filter
          (fun i => i.item_type == "ADDON" && addons.contains i.variation_id)
      let plan_and_addon_items :=
        LineItem.mk (some plan_item.variation_id) none none ::
          db_addons.map (fun a => LineItem.mk (some a.variation_id) none none)
      let subtotal :=
        plan_db.plan_cost +
          (if addons.isEmpty then (0 : ℚ) else
            (addons.map (fun vid =>
              if 0 < prices vid then prices vid
              else
                match db_addons.find? (fun a => a.variation_id == vid) with
                | some addon_db => addon_db.price
                | none => 0)).sum)
      let processing_fee := pyRound2 (subtotal * 0.040 + 0.10)
      let processing_fee_cents := pyInt (processing_fee * 100)
      let fee_line :=
        match db.items.find? (fun i => i.item_type == "FEE") with
        | some fee_item =>
          if fee_item.variation_id != "PROCESSING_FEE_PLACEHOLDER" then
            LineItem.mk (some fee_item.variation_id) none (some processing_fee_cents)
          else
            LineItem.mk none (some "Payment Processing Fee") (some processing_fee_cents)
        | none => LineItem.mk none (some "Payment Processing Fee") (some processing_fee_cents)
      .success ⟨plan_and_addon_items ++ [fee_line], subtotal, processing_fee,
        subtotal + processing_fee⟩

/-- Row of `customers` (models/user.py), restricted to the subscription
lifecycle fields; identity/address columns and timestamps are omitted as
they are never read by the embedded logic (email is kept because the
scheduler reports it). -/
structure Customer where
  id : ℕ
  email : String
  square_customer_id : Option String := none
  square_subscription_id : Option String := none
  subscription_active : Bool := false
  subscription_status : Option String := none
  plan_id : Option String := none
  order_template_id : Option String := none
  selected_addons : Option (List String) := none
  failed_payment_attempts : ℕ := 0
  subscription_paused_by_schedule : Bool := false
deriving DecidableEq, Repr

/-- Row of `subscription_logs` (the audit log); `effective_date` is the
wall-clock day of the call and is omitted from the model. -/
structure SubscriptionLog where
  customer_id : ℕ
  subscription_id : Option String
  action : String
  details : Option String := none
deriving DecidableEq, Repr

/-- Webhook event types handled by routers/webhooks.py. -/
inductive WebhookEventType
  | payment_failed
  | payment_succeeded
deriving DecidableEq, Repr

/-- Handler `square_webhook` from routers/webhooks.py, applied to the
customer row found for the event's gateway customer id; returns the
updated row and any audit log rows written. -/
def square_webhook (event : WebhookEventType) (customer : Customer) :
    Customer × List SubscriptionLog :=
  match event with
  | .payment_failed =>
    let c1 := { customer with
      failed_payment_attempts := customer.failed_payment_attempts + 1 }
    if c1.failed_payment_attempts ≥ 3 then
      ({ c1 with
          subscription_status := some "SUSPENDED",
          subscription_active := false },
        [⟨customer.id, customer.square_subscription_id, "SUSPEND",
          some "Suspended after 3 failed payment attempts"⟩])
    else (c1, [])
  | .payment_succeeded =>
    if customer.failed_payment_attempts > 0 then
      if customer.subscription_status == some "SUSPENDED" then
        ({ customer with
            failed_payment_attempts := 0,
            subscription_status := some "ACTIVE",
            subscription_active := true }, [])
      else ({ customer with failed_payment_attempts := 0 }, [])
    else (customer, [])

/-- Response, updated customer row, and audit rows of a lifecycle
endpoint in routers/payment.py. -/
structure EndpointResult where
  ok : Bool
  error : Option String
  user : Customer
  logs : List SubscriptionLog
deriving DecidableEq, Repr

/-- Handler `pause_sub` (POST /pause-subscription) from
routers/payment.py; `gateway_ok` models whether the Square pause call
returned without an `errors` key. -/
def pause_sub (user : Customer) (gateway_ok : Bool) : EndpointResult :=
  match user.square_subscription_id with
  | none => ⟨false, some "No active subscription found", user, []⟩
  | some sid =>
    if !gateway_ok then ⟨false, some "pause gateway errors", user, []⟩
    else
      ⟨true, none, { user with subscription_status := some "PAUSED" },
        [⟨user.id, some sid, "PAUSE", none⟩]⟩

/-- Handler `resume_sub` (POST /resume-subscription) from
routers/payment.py. -/
def resume_sub (user : Customer) (gateway_ok : Bool) : EndpointResult :=
  match user.square_subscription_id with
  | none => ⟨false, some "No active subscription found", user, []⟩
  | some sid =>
    if !gateway_ok then ⟨false, some "resume gateway errors", user, []⟩
    else
      ⟨true, none, { user with subscription_status := some "ACTIVE" },
        [⟨user.id, some sid, "RESUME", none⟩]⟩

/-- Handler `cancel_sub` (POST /cancel-subscription) from
routers/payment.py. -/
def cancel_sub (user : Customer) (gateway_ok : Bool) : EndpointResult :=
  match user.square_subscription_id with
  | none => ⟨false, some "No active subscription found", user, []⟩
  | some sid =>
    if !gateway_ok then ⟨false, some "cancel gateway error", user, []⟩
    else
      ⟨true, none,
        { user with
          subscription_active := false,
          subscription_status := some "CANCELED" },
        [⟨user.id, some sid, "CANCEL", none⟩]⟩

/-- Row of `one_time_orders` written for an immediate add-on charge;
`customer_details` is presentation-only and omitted. -/
structure OneTimeOrder where
  customer_id : ℕ
  plan_name : String
  plan_cost : ℚ
  addons : List (String × ℚ × String)
  total_cost : ℚ
  square_payment_id : Option String
  payment_status : String
deriving DecidableEq, Repr

/-- Row of `payments` (models/subscription.py). -/
structure Payment where
  customer_id : ℕ
  amount : ℚ
  status : String
  square_transaction_id : Option String
deriving DecidableEq, Repr

/-- Request body `ActivateSubscriptionRequest` from routers/payment.py. -/
structure ActivateSubscriptionRequest where
  plan_variation_id : String
  customer_id : Option ℕ := none
  card_id : String
  location_id : Option String := none
  idempotency_key : Option String := none
  start_date : Option DateYMD := none
  addons : Option (List String) := none
deriving DecidableEq, Repr

/-- Outcomes of the three gateway calls made by `activate_sub`:
the immediate one-time charge, the order-template creation, and the
subscription create/update. -/
structure Gateway where
  payment_ok : Bool
  payment_id : String
  order_ok : Bool
  order_id : String
  subscription_ok : Bool
  subscription_id : String
deriving DecidableEq, Repr

/-- Step 1 of `activate_sub` (payment.py lines 564-567): the add-on rows
whose `variation_id` appears in the request (unknown ids are simply not
returned by the query). -/
def requestDbAddons (db : Db) (request : ActivateSubscriptionRequest) :
    List ItemVariation :=
  match request.addons with
  | none => []
  | some addon_ids =>
    if addon_ids.isEmpty then []
    else db.items.filter (fun i => addon_ids.contains i.variation_id)

/-- One-time side of the partition in `activate_sub` (lines 569-573). -/
def oneTimeAddons (db : Db) (request : ActivateSubscriptionRequest) :
    List ItemVariation :=
  (requestDbAddons db request).filter (fun a => a.billing_type == "ONE_TIME")

/-- Recurring side of the partition in `activate_sub` (lines 569-573). -/
def recurringAddonIds (db : Db) (request : ActivateSubscriptionRequest) :
    List String :=
  ((requestDbAddons db request).filter (fun a => a.billing_type != "ONE_TIME")).map
    (fun a => a.variation_id)

/-- Everything `activate_sub` produces: the HTTP outcome, the customer
row as left in the database, the rows inserted, and which gateway calls
were reached. -/
structure ActivateResult where
  ok : Bool
  error : Option String := none
  customer : Option Customer
  one_time_orders : List OneTimeOrder := []
  payments : List Payment := []
  logs : List SubscriptionLog := []
  charge_amount : Option ℚ := none
  order_create_attempted : Bool := false
  subscription_call_attempted : Bool := false
deriving DecidableEq, Repr

/-- Handler `activate_sub` (POST /activate-subscription) from
routers/payment.py.  `customer` is the row looked up from
`request.customer_id` (none when absent or not found), `now` is the
signup-time clock read used by the start-date calculation, and `gw` the
gateway call outcomes.  An `HTTPException` becomes an `ok := false`
result carrying the rows committed before the raise. -/
def activate_sub (db : Db) (prices : String → ℚ) (gw : Gateway)
    (now : DateYMD) (request : ActivateSubscriptionRequest)
    (customer : Option Customer) : ActivateResult :=
  match customer with
  | none =>
    { ok := false, error := some "Square customer ID missing",
      customer := none }
  | some c =>
    if (c.square_customer_id.getD "") == "" then
      { ok := false, error := some "Square customer ID missing",
        customer := some c }
    else
      let one_time_addons := oneTimeAddons db request
      let recurring_addon_ids := recurringAddonIds db request
      let ot_subtotal := (one_time_addons.map (fun a => a.price)).sum
      let ot_processing_fee := ot_subtotal * 0.040 + 0.10
      let ot_final_amount := ot_subtotal + ot_processing_fee
      let charge_amount : Option ℚ :=
        if one_time_addons.isEmpty then none else some ot_final_amount
      if !one_time_addons.isEmpty && !gw.payment_ok then
        { ok := false, error := some "One-time addon payment failed",
          customer := some c, charge_amount := charge_amount }
      else
        let ot_orders : List OneTimeOrder :=
          if one_time_addons.isEmpty then [] else
            [⟨c.id, "One-Time Addons (with Subscription)", ot_subtotal,
              one_time_addons.map (fun a => (a.name, a.price, a.billing_type)),
              ot_final_amount, some gw.payment_id, "COMPLETED"⟩]
        let ot_payments : List Payment :=
          if one_time_addons.isEmpty then [] else
            [⟨c.id, ot_final_amount, "PAID", some gw.payment_id⟩]
        match prepare_subscription_order_items db prices
            request.plan_variation_id recurring_addon_ids with
        | .failure e =>
          { ok := false, error := some e, customer := some c,
            one_time_orders := ot_orders, payments := ot_payments,
            charge_amount := charge_amount }
        | .success order_data =>
          if !gw.order_ok then
            { ok := false, error := some "Order template creation failed",
              customer := some c, one_time_orders := ot_orders,
              payments := ot_payments, charge_amount := charge_amount,
              order_create_attempted := true }
          else
            let plan? := db.plans.find?
              (fun p => p.plan_variation_id == request.plan_variation_id)
            let calculated_start_date :=
              match plan? with
              | some plan =>
                calculate_subscription_start_date db.schedules plan.plan_name now
              | none => none
            let _final_start_date :=
              match calculated_start_date with
              | some d => some d
              | none => request.start_date
            if !gw.subscription_ok then
              { ok := false, error := some "Subscription failed",
                customer := some c, one_time_orders := ot_orders,
                payments := ot_payments, charge_amount := charge_amount,
                order_create_attempted := true,
                subscription_call_attempted := true }
            else
              let c2 := { c with
                square_subscription_id := some gw.subscription_id,
                order_template_id := some gw.order_id,
                subscription_active := true,
                subscription_status := some "ACTIVE",
                selected_addons := request.addons }
              { ok := true, customer := some c2,
                one_time_orders := ot_orders,
                payments := ot_payments ++
                  [⟨c.id, order_data.subtotal + order_data.processing_fee,
                    "PAID", some gw.subscription_id⟩],
                logs := [⟨c.id, some gw.subscription_id, "ACTIVATE", none⟩],
                charge_amount := charge_amount,
                order_create_attempted := true,
                subscription_call_attempted := true }

/-- Function `is_plan_active_for_month` from subscription_scheduler.py:
a missing schedule counts as always active. -/
def is_plan_active_for_month (schedule : Option SubscriptionPlanSchedule)
    (month : ℕ) : Bool :=
  match schedule with
  | none => true
  | some s => s.is_month_active month

/-- Entry appended to the scheduler's `paused` / `resumed` result lists. -/
structure SchedulerEntry where
  customer_id : ℕ
  email : String
  plan : String
  dry_run : Bool := false
deriving DecidableEq, Repr

/-- Entry appended to the scheduler's `errors` result list. -/
structure SchedulerError where
  customer_id : ℕ
  action : String
  error : String
deriving DecidableEq, Repr

/-- Plan-name resolution inside the scheduler loop
(subscription_scheduler.py lines 95-105), as a function of the
customer's `plan_id` column (the only field it reads): a numeric
`plan_id` is looked up in `subscription_plans`, anything else is used
verbatim. -/
def customerPlanName (plans : List SubscriptionPlan)
    (plan_id : Option String) : Option String :=
  match plan_id with
  | none => none
  | some pid =>
    let plan? :=
      if pyIsDigit pid then
        match pid.toNat? with
        | some n => plans.find? (fun p => p.id == n)
        | none => none
      else none
    match plan? with
    | some plan => some plan.plan_name
    | none => some pid

/-- Result of processing one customer row in the scheduler's inner loop. -/
structure StepOutcome where
  customer : Customer
  paused : List SchedulerEntry
  resumed : List SchedulerEntry
  errors : List SchedulerError
deriving DecidableEq, Repr

/-- Body of the scheduler's inner loop
(subscription_scheduler.py lines 93-168) for one schedule and one
customer row.  `pause_ok` / `resume_ok` model whether the Square call
for a given subscription id returns without an `errors` key.  Customers
without a `square_subscription_id` are the rows the query filters out. -/
def scheduler_customer_step (plans : List SubscriptionPlan)
    (pause_ok resume_ok : String → Bool) (dry_run : Bool)
    (schedule : SubscriptionPlanSchedule) (plan_active : Bool)
    (c : Customer) : StepOutcome :=
  match c.square_subscription_id with
  | none => ⟨c, [], [], []⟩
  | some sid =>
    match customerPlanName plans c.plan_id with
    | none => ⟨c, [], [], []⟩
    | some customer_plan =>
      if customer_plan == "" then ⟨c, [], [], []⟩
      else if !pyInLower schedule.plan_name customer_plan then ⟨c, [], [], []⟩
      else if !plan_active && c.subscription_status == some "ACTIVE" then
        if dry_run then ⟨c, [⟨c.id, c.email, customer_plan, true⟩], [], []⟩
        else if pause_ok sid then
          ⟨{ c with
              subscription_status := some "PAUSED",
              subscription_paused_by_schedule := true },
            [⟨c.id, c.email, customer_plan, false⟩], [], []⟩
        else ⟨c, [], [], [⟨c.id, "pause", "gateway errors"⟩]⟩
      else if plan_active && c.subscription_status == some "PAUSED" &&
          c.subscription_paused_by_schedule then
        if dry_run then ⟨c, [], [⟨c.id, c.email, customer_plan, true⟩], []⟩
        else if resume_ok sid then
          ⟨{ c with
              subscription_status := some "ACTIVE",
              subscription_paused_by_schedule := false },
            [], [⟨c.id, c.email, customer_plan, false⟩], []⟩
        else ⟨c, [], [], [⟨c.id, "resume", "gateway errors"⟩]⟩
      else ⟨c, [], [], []⟩

/-- Accumulated result of a scheduler run: the customer table as left in
the database plus the `paused` / `resumed` / `errors` report lists. -/
structure RunOutcome where
  customers : List Customer
  paused : List SchedulerEntry
  resumed : List SchedulerEntry
  errors : List SchedulerError
deriving DecidableEq, Repr

/-- Inner customer loop of the scheduler, for one schedule: every row is
visited in order and updated in place. -/
def scheduler_schedule_pass (plans : List SubscriptionPlan)
    (pause_ok resume_ok : String → Bool) (dry_run : Bool)
    (schedule : SubscriptionPlanSchedule) (plan_active : Bool) :
    List Customer → RunOutcome
  | [] => ⟨[], [], [], []⟩
  | c :: rest =>
    let o := scheduler_customer_step plans pause_ok resume_ok dry_run
      schedule plan_active c
    let r := scheduler_schedule_pass plans pause_ok resume_ok dry_run
      schedule plan_active rest
    ⟨o.customer :: r.customers, o.paused ++ r.paused,
      o.resumed ++ r.resumed, o.errors ++ r.errors⟩

/-- Function `process_monthly_subscription_schedules` from
subscription_scheduler.py: the outer loop over all plan schedules,
threading the customer table through each pass and concatenating the
report lists. -/
def process_monthly_subscription_schedules (plans : List SubscriptionPlan)
    (pause_ok resume_ok : String → Bool) (dry_run : Bool)
    (current_month : ℕ) :
    List SubscriptionPlanSchedule → List Customer → RunOutcome
  | [], customers => ⟨customers, [], [], []⟩
  | schedule :: rest, customers =>
    let plan_active := is_plan_active_for_month (some schedule) current_month
    let pass := scheduler_schedule_pass plans pause_ok resume_ok dry_run
      schedule plan_active customers
    let r := process_monthly_subscription_schedules plans pause_ok resume_ok
      dry_run current_month rest pass.customers
    ⟨r.customers, pass.paused ++ r.paused, pass.resumed ++ r.resumed,
      pass.errors ++ r.errors⟩

/-- Whether the scheduler's inner loop reaches the pause/resume decision
for this schedule and customer: the row has a subscription id and its
resolved plan name contains the schedule's name (case-insensitively). -/
def scheduler_matches (plans : List SubscriptionPlan)
    (schedule : SubscriptionPlanSchedule) (c : Customer) : Bool :=
  c.square_subscription_id.isSome &&
    (match customerPlanName plans c.plan_id with
     | none => false
     | some cp => !(cp == "") && pyInLower schedule.plan_name cp)

/-- Composition of the per-customer step over the schedule list: the net
effect of one whole scheduler run on a single customer row. -/
def scheduler_customer_fold (plans : List SubscriptionPlan)
    (pause_ok resume_ok : String → Bool) (dry_run : Bool)
    (current_month : ℕ) (schedules : List SubscriptionPlanSchedule)
    (c : Customer) : Customer :=
  schedules.foldl
    (fun c sched =>
      (scheduler_customer_step plans pause_ok resume_ok dry_run sched
        (is_plan_active_for_month (some sched) current_month) c).customer)
    c

theorem next_active_scan_none_iff (s : SubscriptionPlanSchedule) (f : ℕ) :
    ∀ (fuel i : ℕ),
      (next_active_scan s f i fuel = none ↔
        ∀ k < fuel, s.is_month_active (monthAt f (i + k)) = false) := by
  intro fuel
  induction fuel with
  | zero => intro i; simp [next_active_scan]
  | succ n ih =>
    intro i
    rw [next_active_scan]
    by_cases h : s.is_month_active (monthAt f i) = true
    · simp only [h, if_true]
      constructor
      · intro hc; exact absurd hc (by simp)
      · intro hall
        have := hall 0 (Nat.succ_pos n)
        simp [h] at this
    · have hf : s.is_month_active (monthAt f i) = false := by
        simpa using h
      simp only [hf, Bool.false_eq_true, if_false]
      rw [ih (i + 1)]
      constructor
      · intro hall k hk
        match k with
        | 0 => simpa using hf
        | k' + 1 =>
          have := hall k' (by omega)
          have harith : i + 1 + k' = i + (k' + 1) := by omega
          rwa [harith] at this
      · intro hall k hk
        have := hall (k + 1) (by omega)
        have harith : i + (k + 1) = i + 1 + k := by omega
        rwa [harith] at this

theorem next_active_scan_some (s : SubscriptionPlanSchedule) (f : ℕ) :
    ∀ (fuel i m : ℕ),
      next_active_scan s f i fuel = some m →
      ∃ k, k < fuel ∧ m = monthAt f (i + k) ∧ s.is_month_active m = true ∧
        ∀ j < k, s.is_month_active (monthAt f (i + j)) = false := by
  intro fuel
  induction fuel with
  | zero => intro i m h; simp [next_active_scan] at h
  | succ n ih =>
    intro i m h
    rw [next_active_scan] at h
    by_cases hact : s.is_month_active (monthAt f i) = true
    · simp only [hact, if_true, Option.some.injEq] at h
      refine ⟨0, Nat.succ_pos n, ?_, ?_, ?_⟩
      · rw [Nat.add_zero]; exact h.symm
      · rw [← h]; simpa using hact
      · intro j hj; omega
    · have hf : s.is_month_active (monthAt f i) = false := by simpa using hact
      simp only [hf, Bool.false_eq_true, if_false] at h
      obtain ⟨k, hk, hm, hma, hmin⟩ := ih (i + 1) m h
      refine ⟨k + 1, by omega, ?_, hma, ?_⟩
      · have harith : i + 1 + k = i + (k + 1) := by omega
        rwa [harith] at hm
      · intro j hj
        match j with
        | 0 => simpa using hf
        | j' + 1 =>
          have := hmin j' (by omega)
          have harith : i + 1 + j' = i + (j' + 1) := by omega
          rwa [harith] at this

/-- C8: calculate_subscription_start_date returns none exactly when no
schedule matches the plan name or the signup month is active for the
matched schedule; otherwise it returns the first day of the first month
in a forward scan of up to 12 months starting at the signup month
inclusive for which is_month_active holds (falling back to the signup
month itself if none is found), placed in the following calendar year
exactly when that month is numerically below the signup month. -/
theorem calculate_subscription_start_date_correct
    (schedules : List SubscriptionPlanSchedule) (plan_name : String)
    (d : DateYMD) (h1 : 1 ≤ d.month) (h2 : d.month ≤ 12) :
    monthAt d.month 0 = d.month
    ∧ (calculate_subscription_start_date schedules plan_name d = none ↔
        get_schedule_for_plan schedules plan_name = none ∨
        ∃ s, get_schedule_for_plan schedules plan_name = some s ∧
          s.is_month_active d.month = true)
    ∧ (∀ s, get_schedule_for_plan schedules plan_name = some s →
        s.is_month_active d.month = false →
        ∃ m, calculate_subscription_start_date schedules plan_name d =
            some ⟨(if m < d.month then d.year + 1 else d.year), m, 1⟩ ∧
          ((∃ i, i < 12 ∧ m = monthAt d.month i ∧ s.is_month_active m = true ∧
              ∀ j < i, s.is_month_active (monthAt d.month j) = false) ∨
            (m = d.month ∧
              ∀ i < 12, s.is_month_active (monthAt d.month i) = false))) := by
  refine ⟨?_, ?_, ?_⟩
  · unfold monthAt
    rw [Nat.add_zero, Nat.mod_eq_of_lt (by omega)]
    omega
  · unfold calculate_subscription_start_date
    cases hlook : get_schedule_for_plan schedules plan_name with
    | none => simp
    | some s =>
      by_cases hact : s.is_month_active d.month = true
      · simp [hact]
      · have hf : s.is_month_active d.month = false := by simpa using hact
        simp [hf]
  · intro s hs hactF
    unfold calculate_subscription_start_date
    rw [hs]
    simp only [hactF, Bool.false_eq_true, if_false]
    refine ⟨get_next_active_month s d.month, rfl, ?_⟩
    unfold get_next_active_month
    cases hscan : next_active_scan s d.month 0 12 with
    | none =>
      right
      refine ⟨rfl, ?_⟩
      intro i hi
      have := (next_active_scan_none_iff s d.month 12 0).mp hscan i hi
      simpa using this
    | some m0 =>
      left
      obtain ⟨k, hk, hm, hma, hmin⟩ := next_active_scan_some s d.month 12 0 m0 hscan
      refine ⟨k, hk, by simpa using hm, hma, ?_⟩
      intro j hj
      have := hmin j hj
      simpa using this

/-- Witness for C8 at the spec's own example: plan schedule Jan-Feb,
signup in June 2025. -/
theorem calculate_subscription_start_date_correct_witness :
    1 ≤ (DateYMD.mk 2025 6 15).month ∧ (DateYMD.mk 2025 6 15).month ≤ 12 ∧
    (monthAt (DateYMD.mk 2025 6 15).month 0 = (DateYMD.mk 2025 6 15).month
    ∧ (calculate_subscription_start_date [⟨"Turf", 1, 2⟩] "Turf"
          (DateYMD.mk 2025 6 15) = none ↔
        get_schedule_for_plan [⟨"Turf", 1, 2⟩] "Turf" = none ∨
        ∃ s, get_schedule_for_plan [⟨"Turf", 1, 2⟩] "Turf" = some s ∧
          s.is_month_active (DateYMD.mk 2025 6 15).month = true)
    ∧ (∀ s, get_schedule_for_plan [⟨"Turf", 1, 2⟩] "Turf" = some s →
        s.is_month_active (DateYMD.mk 2025 6 15).month = false →
        ∃ m, calculate_subscription_start_date [⟨"Turf", 1, 2⟩] "Turf"
            (DateYMD.mk 2025 6 15) =
            some ⟨(if m < (DateYMD.mk 2025 6 15).month
                then (DateYMD.mk 2025 6 15).year + 1
                else (DateYMD.mk 2025 6 15).year), m, 1⟩ ∧
          ((∃ i, i < 12 ∧ m = monthAt (DateYMD.mk 2025 6 15).month i ∧
              s.is_month_active m = true ∧
              ∀ j < i, s.is_month_active
                (monthAt (DateYMD.mk 2025 6 15).month j) = false) ∨
            (m = (DateYMD.mk 2025 6 15).month ∧
              ∀ i < 12, s.is_month_active
                (monthAt (DateYMD.mk 2025 6 15).month i) = false)))) :=
  ⟨by decide, by decide,
    calculate_subscription_start_date_correct [⟨"Turf", 1, 2⟩] "Turf"
      (DateYMD.mk 2025 6 15) (by decide) (by decide)⟩

/-- C2 counterexample: a request whose add-on id has no catalog entry
does not produce an error; the assembler returns a success order that
silently omits the unknown add-on (no line item for "MISSING" and no
price contribution). -/
theorem prepare_unknown_addon_returns_success :
    prepare_subscription_order_items
        ⟨[⟨1, "Turf", 100, "PV"⟩],
          [⟨"PLAN", "Turf", "PLANVAR", 0, "RECURRING"⟩], []⟩
        (fun _ => 0) "PV" ["MISSING"] =
      PrepResult.success
        ⟨[⟨some "PLANVAR", none, none⟩,
          ⟨none, some "Payment Processing Fee", some 410⟩],
          100, 41 / 10, 1041 / 10⟩ := by
  norm_num [prepare_subscription_order_items, pyRound2, roundHalfEvenZ, pyInt,
    Rat.floor_def', List.find?]
  decide

/-- C2 amended: prepare_subscription_order_items fails exactly when the
plan row or the plan's PLAN catalog item cannot be resolved; requested
add-on ids that resolve to no catalog entry never cause a failure — they
are silently dropped from the order. -/
theorem prepare_subscription_order_items_fails_iff
    (db : Db) (prices : String → ℚ) (pvid : String) (addons : List String) :
    (∃ e, prepare_subscription_order_items db prices pvid addons =
        PrepResult.failure e) ↔
      db.plans.find? (fun p => p.plan_variation_id == pvid) = none ∨
      ∃ p, db.plans.find? (fun p => p.plan_variation_id == pvid) = some p ∧
        db.items.find?
          (fun i => i.item_type == "PLAN" && i.name == p.plan_name) = none := by
  cases h1 : db.plans.find? (fun p => p.plan_variation_id == pvid) with
  | none =>
    simp [prepare_subscription_order_items, h1]
  | some p =>
    cases h2 : db.items.find?
        (fun i => i.item_type == "PLAN" && i.name == p.plan_name) with
    | none =>
      simp [prepare_subscription_order_items, h1, h2]
      intro x hx hPlan
      have hfe := List.find?_eq_none.mp h2 x hx
      simp [hPlan] at hfe
      exact hfe
    | some it =>
      simp [prepare_subscription_order_items, h1, h2]
      have hmem := List.mem_of_find?_eq_some h2
      have hp := List.find?_some h2
      simp at hp
      exact ⟨it, hmem, hp.1, hp.2⟩

/-- C7: from ACTIVE with a zero failure counter, two payment-failure
webhooks merely accumulate the counter and change nothing else, while
the third sets SUSPENDED, clears subscription_active and writes a
SUSPEND audit event. -/
theorem record_payment_failure_three_strikes (c : Customer)
    (hs : c.subscription_status = some "ACTIVE")
    (hf : c.failed_payment_attempts = 0) :
    ((square_webhook .payment_failed
        (square_webhook .payment_failed c).1).1.subscription_status =
          some "ACTIVE" ∧
      (square_webhook .payment_failed
        (square_webhook .payment_failed c).1).1.subscription_active =
          c.subscription_active ∧
      (square_webhook .payment_failed
        (square_webhook .payment_failed c).1).1.failed_payment_attempts = 2 ∧
      (square_webhook .payment_failed c).2 = [] ∧
      (square_webhook .payment_failed
        (square_webhook .payment_failed c).1).2 = []) ∧
    ((square_webhook .payment_failed (square_webhook .payment_failed
        (square_webhook .payment_failed c).1).1).1.subscription_status =
          some "SUSPENDED" ∧
      (square_webhook .payment_failed (square_webhook .payment_failed
        (square_webhook .payment_failed c).1).1).1.subscription_active = false ∧
      (square_webhook .payment_failed (square_webhook .payment_failed
        (square_webhook .payment_failed c).1).1).1.failed_payment_attempts = 3 ∧
      (square_webhook .payment_failed (square_webhook .payment_failed
        (square_webhook .payment_failed c).1).1).2 =
        [⟨c.id, c.square_subscription_id, "SUSPEND",
          some "Suspended after 3 failed payment attempts"⟩]) := by
  simp [square_webhook, hf, hs]

/-- Witness for C7 at a concrete ACTIVE customer. -/
theorem record_payment_failure_three_strikes_witness :
    (Customer.mk 7 "w@x.y" (some "SQ") (some "s7") true (some "ACTIVE")
        none none none 0 false).subscription_status = some "ACTIVE" ∧
    (Customer.mk 7 "w@x.y" (some "SQ") (some "s7") true (some "ACTIVE")
        none none none 0 false).failed_payment_attempts = 0 ∧
    (((square_webhook .payment_failed (square_webhook .payment_failed
        (Customer.mk 7 "w@x.y" (some "SQ") (some "s7") true (some "ACTIVE")
          none none none 0 false)).1).1.subscription_status = some "ACTIVE" ∧
      (square_webhook .payment_failed (square_webhook .payment_failed
        (Customer.mk 7 "w@x.y" (some "SQ") (some "s7") true (some "ACTIVE")
          none none none 0 false)).1).1.subscription_active =
        (Customer.mk 7 "w@x.y" (some "SQ") (some "s7") true (some "ACTIVE")
          none none none 0 false).subscription_active ∧
      (square_webhook .payment_failed (square_webhook .payment_failed
        (Customer.mk 7 "w@x.y" (some "SQ") (some "s7") true (some "ACTIVE")
          none none none 0 false)).1).1.failed_payment_attempts = 2 ∧
      (square_webhook .payment_failed
        (Customer.mk 7 "w@x.y" (some "SQ") (some "s7") true (some "ACTIVE")
          none none none 0 false)).2 = [] ∧
      (square_webhook .payment_failed (square_webhook .payment_failed
        (Customer.mk 7 "w@x.y" (some "SQ") (some "s7") true (some "ACTIVE")
          none none none 0 false)).1).2 = []) ∧
    ((square_webhook .payment_failed (square_webhook .payment_failed
        (square_webhook .payment_failed
          (Customer.mk 7 "w@x.y" (some "SQ") (some "s7") true (some "ACTIVE")
            none none none 0 false)).1).1).1.subscription_status =
          some "SUSPENDED" ∧
      (square_webhook .payment_failed (square_webhook .payment_failed
        (square_webhook .payment_failed
          (Customer.mk 7 "w@x.y" (some "SQ") (some "s7") true (some "ACTIVE")
            none none none 0 false)).1).1).1.subscription_active = false ∧
      (square_webhook .payment_failed (square_webhook .payment_failed
        (square_webhook .payment_failed
          (Customer.mk 7 "w@x.y" (some "SQ") (some "s7") true (some "ACTIVE")
            none none none 0 false)).1).1).1.failed_payment_attempts = 3 ∧
      (square_webhook .payment_failed (square_webhook .payment_failed
        (square_webhook .payment_failed
          (Customer.mk 7 "w@x.y" (some "SQ") (some "s7") true (some "ACTIVE")
            none none none 0 false)).1).1).2 =
        [⟨(Customer.mk 7 "w@x.y" (some "SQ") (some "s7") true (some "ACTIVE")
            none none none 0 false).id,
          (Customer.mk 7 "w@x.y" (some "SQ") (some "s7") true (some "ACTIVE")
            none none none 0 false).square_subscription_id, "SUSPEND",
          some "Suspended after 3 failed payment attempts"⟩])) :=
  ⟨rfl, rfl,
    record_payment_failure_three_strikes
      (Customer.mk 7 "w@x.y" (some "SQ") (some "s7") true (some "ACTIVE")
        none none none 0 false) rfl rfl⟩

/-- C5 counterexample: a SUSPENDED customer whose failure counter is 0 is
left SUSPENDED by a payment_succeeded webhook (the reactivation check is
nested under the counter check), and the unguarded manual resume endpoint
is another path that takes a SUSPENDED customer to ACTIVE. -/
theorem payment_success_suspended_zero_counter_cex :
    square_webhook .payment_succeeded
        { id := 5, email := "c5@x.y", square_customer_id := some "SQ5",
          square_subscription_id := some "s5",
          subscription_status := some "SUSPENDED" } =
      ({ id := 5, email := "c5@x.y", square_customer_id := some "SQ5",
          square_subscription_id := some "s5",
          subscription_status := some "SUSPENDED" }, []) ∧
    (resume_sub
        { id := 5, email := "c5@x.y", square_customer_id := some "SQ5",
          square_subscription_id := some "s5",
          subscription_status := some "SUSPENDED" } true).user.subscription_status =
      some "ACTIVE" := by
  decide

/-- C5 amended: a payment_succeeded webhook always leaves the failure
counter at 0; it moves a SUSPENDED customer back to ACTIVE only when the
counter was positive (a suspended customer with a zero counter is left
unchanged); and the webhook is not the only path out of SUSPENDED, since
the status-unguarded manual resume endpoint also yields ACTIVE. -/
theorem record_payment_success_behavior (c : Customer) :
    (square_webhook .payment_succeeded c).1.failed_payment_attempts = 0 ∧
    (c.failed_payment_attempts > 0 → c.subscription_status = some "SUSPENDED" →
      (square_webhook .payment_succeeded c).1.subscription_status =
          some "ACTIVE" ∧
        (square_webhook .payment_succeeded c).1.subscription_active = true) ∧
    (c.failed_payment_attempts = 0 →
      square_webhook .payment_succeeded c = (c, [])) ∧
    (∀ sid, c.square_subscription_id = some sid →
      (resume_sub c true).user.subscription_status = some "ACTIVE") := by
  refine ⟨?_, ?_, ?_, ?_⟩
  · simp only [square_webhook]
    split_ifs with h1 h2
    · simp
    · simp
    · simp
      omega
  · intro hf hs
    have hsb : (c.subscription_status == some "SUSPENDED") = true := by
      simp [hs]
    simp [square_webhook, hf, hsb]
  · intro hf
    simp [square_webhook, hf]
  · intro sid hsid
    simp [resume_sub, hsid]

/-- Witness for C5 at concrete customers: a SUSPENDED one with counter 2
(reactivated) and a SUSPENDED one with counter 0 (untouched). -/
theorem record_payment_success_behavior_witness :
    ((Customer.mk 51 "a@x.y" (some "SQ") (some "sA") false (some "SUSPENDED")
        none none none 2 false).failed_payment_attempts > 0 ∧
      (Customer.mk 51 "a@x.y" (some "SQ") (some "sA") false (some "SUSPENDED")
        none none none 2 false).subscription_status = some "SUSPENDED" ∧
      ((square_webhook .payment_succeeded
          (Customer.mk 51 "a@x.y" (some "SQ") (some "sA") false
            (some "SUSPENDED") none none none 2 false)).1.subscription_status =
            some "ACTIVE" ∧
        (square_webhook .payment_succeeded
          (Customer.mk 51 "a@x.y" (some "SQ") (some "sA") false
            (some "SUSPENDED") none none none 2 false)).1.subscription_active =
            true) ∧
      (square_webhook .payment_succeeded
        (Customer.mk 51 "a@x.y" (some "SQ") (some "sA") false (some "SUSPENDED")
          none none none 2 false)).1.failed_payment_attempts = 0 ∧
      (resume_sub (Customer.mk 51 "a@x.y" (some "SQ") (some "sA") false
          (some "SUSPENDED") none none none 2 false) true).user.subscription_status =
        some "ACTIVE") ∧
    ((Customer.mk 52 "b@x.y" (some "SQ") (some "sB") false (some "SUSPENDED")
        none none none 0 false).failed_payment_attempts = 0 ∧
      square_webhook .payment_succeeded
          (Customer.mk 52 "b@x.y" (some "SQ") (some "sB") false
            (some "SUSPENDED") none none none 0 false) =
        (Customer.mk 52 "b@x.y" (some "SQ") (some "sB") false (some "SUSPENDED")
          none none none 0 false, [])) :=
  ⟨⟨by decide, by decide,
      (record_payment_success_behavior
        (Customer.mk 51 "a@x.y" (some "SQ") (some "sA") false (some "SUSPENDED")
          none none none 2 false)).2.1 (by decide) (by decide),
      (record_payment_success_behavior
        (Customer.mk 51 "a@x.y" (some "SQ") (some "sA") false (some "SUSPENDED")
          none none none 2 false)).1,
      (record_payment_success_behavior
        (Customer.mk 51 "a@x.y" (some "SQ") (some "sA") false (some "SUSPENDED")
          none none none 2 false)).2.2.2 "sA" (by decide)⟩,
    ⟨by decide,
      (record_payment_success_behavior
        (Customer.mk 52 "b@x.y" (some "SQ") (some "sB") false (some "SUSPENDED")
          none none none 0 false)).2.2.1 (by decide)⟩⟩

/-- C3 counterexample: a manual resume of a schedule-paused customer
succeeds but leaves paused_by_schedule stuck at true (the claim requires
every successful resume to clear it). -/
theorem manual_resume_keeps_pause_origin_flag :
    (resume_sub
        { id := 3, email := "c3@x.y", square_subscription_id := some "s3",
          subscription_status := some "PAUSED",
          subscription_paused_by_schedule := true } true).ok = true ∧
    (resume_sub
        { id := 3, email := "c3@x.y", square_subscription_id := some "s3",
          subscription_status := some "PAUSED",
          subscription_paused_by_schedule := true } true).user.subscription_paused_by_schedule =
      true := by
  decide

/-- C3 amended: only the scheduler maintains the pause-origin flag — its
pause transition sets paused_by_schedule and its resume transition clears
it — while the manual pause and resume endpoints leave the flag exactly
as it was. -/
theorem pause_origin_flag_behavior (c : Customer) (g : Bool)
    (plans : List SubscriptionPlan) (pok rok : String → Bool)
    (sched : SubscriptionPlanSchedule) (act : Bool) :
    ((pause_sub c g).user.subscription_paused_by_schedule =
      c.subscription_paused_by_schedule) ∧
    ((resume_sub c g).user.subscription_paused_by_schedule =
      c.subscription_paused_by_schedule) ∧
    ((scheduler_customer_step plans pok rok false sched act c).paused ≠ [] →
      (scheduler_customer_step plans pok rok false sched act
          c).customer.subscription_paused_by_schedule = true) ∧
    ((scheduler_customer_step plans pok rok false sched act c).resumed ≠ [] →
      (scheduler_customer_step plans pok rok false sched act
          c).customer.subscription_paused_by_schedule = false) := by
  refine ⟨?_, ?_, ?_, ?_⟩
  · cases h : c.square_subscription_id <;> cases g <;> simp [pause_sub, h]
  · cases h : c.square_subscription_id <;> cases g <;> simp [resume_sub, h]
  · cases h1 : c.square_subscription_id with
    | none => simp [scheduler_customer_step, h1]
    | some sid =>
      cases h2 : customerPlanName plans c.plan_id with
      | none => simp [scheduler_customer_step, h1, h2]
      | some cp =>
        simp only [scheduler_customer_step, h1, h2]
        split_ifs <;> simp_all
  · cases h1 : c.square_subscription_id with
    | none => simp [scheduler_customer_step, h1]
    | some sid =>
      cases h2 : customerPlanName plans c.plan_id with
      | none => simp [scheduler_customer_step, h1, h2]
      | some cp =>
        simp only [scheduler_customer_step, h1, h2]
        split_ifs <;> simp_all

/-- Witness for C3: a manual pause and resume on a flagged customer, the
scheduler pausing an active customer out of season, and the scheduler
resuming a schedule-paused customer in season. -/
theorem pause_origin_flag_behavior_witness :
    ((pause_sub (Customer.mk 31 "m@x.y" (some "SQ") (some "sM") true
          (some "ACTIVE") (some "turf") none none 0 true)
        true).user.subscription_paused_by_schedule =
      (Customer.mk 31 "m@x.y" (some "SQ") (some "sM") true (some "ACTIVE")
        (some "turf") none none 0 true).subscription_paused_by_schedule) ∧
    ((resume_sub (Customer.mk 31 "m@x.y" (some "SQ") (some "sM") true
          (some "ACTIVE") (some "turf") none none 0 true)
        true).user.subscription_paused_by_schedule =
      (Customer.mk 31 "m@x.y" (some "SQ") (some "sM") true (some "ACTIVE")
        (some "turf") none none 0 true).subscription_paused_by_schedule) ∧
    ((scheduler_customer_step [] (fun _ => true) (fun _ => true) false
        ⟨"turf", 6, 8⟩ false
        (Customer.mk 32 "p@x.y" (some "SQ") (some "sP") true (some "ACTIVE")
          (some "turf") none none 0 false)).paused ≠ [] ∧
      (scheduler_customer_step [] (fun _ => true) (fun _ => true) false
        ⟨"turf", 6, 8⟩ false
        (Customer.mk 32 "p@x.y" (some "SQ") (some "sP") true (some "ACTIVE")
          (some "turf") none none 0
          false)).customer.subscription_paused_by_schedule = true) ∧
    ((scheduler_customer_step [] (fun _ => true) (fun _ => true) false
        ⟨"turf", 6, 8⟩ true
        (Customer.mk 33 "r@x.y" (some "SQ") (some "sR") true (some "PAUSED")
          (some "turf") none none 0 true)).resumed ≠ [] ∧
      (scheduler_customer_step [] (fun _ => true) (fun _ => true) false
        ⟨"turf", 6, 8⟩ true
        (Customer.mk 33 "r@x.y" (some "SQ") (some "sR") true (some "PAUSED")
          (some "turf") none none 0
          true)).customer.subscription_paused_by_schedule = false) :=
  ⟨(pause_origin_flag_behavior
      (Customer.mk 31 "m@x.y" (some "SQ") (some "sM") true (some "ACTIVE")
        (some "turf") none none 0 true) true [] (fun _ => true) (fun _ => true)
      ⟨"turf", 6, 8⟩ false).1,
    (pause_origin_flag_behavior
      (Customer.mk 31 "m@x.y" (some "SQ") (some "sM") true (some "ACTIVE")
        (some "turf") none none 0 true) true [] (fun _ => true) (fun _ => true)
      ⟨"turf", 6, 8⟩ false).2.1,
    ⟨by decide,
      (pause_origin_flag_behavior
        (Customer.mk 32 "p@x.y" (some "SQ") (some "sP") true (some "ACTIVE")
          (some "turf") none none 0 false) true [] (fun _ => true)
        (fun _ => true) ⟨"turf", 6, 8⟩ false).2.2.1 (by decide)⟩,
    ⟨by decide,
      (pause_origin_flag_behavior
        (Customer.mk 33 "r@x.y" (some "SQ") (some "sR") true (some "PAUSED")
          (some "turf") none none 0 true) true [] (fun _ => true)
        (fun _ => true) ⟨"turf", 6, 8⟩ true).2.2.2 (by decide)⟩⟩

/-- C4 counterexample: a pause request for a customer whose current
status is CANCELED succeeds against the claim's required InvalidTransition
failure — the endpoint applies PAUSED without consulting the current
status. -/
theorem pause_from_canceled_succeeds :
    (pause_sub
        { id := 4, email := "c4@x.y", square_subscription_id := some "s4",
          subscription_status := some "CANCELED" } true).ok = true ∧
    (pause_sub
        { id := 4, email := "c4@x.y", square_subscription_id := some "s4",
          subscription_status := some "CANCELED" } true).error = none ∧
    (pause_sub
        { id := 4, email := "c4@x.y", square_subscription_id := some "s4",
          subscription_status := some "CANCELED" } true).user.subscription_status =
      some "PAUSED" := by
  decide

/-- C4 amended: the pause/resume/cancel endpoints validate only that a
square_subscription_id exists; when it does and the gateway call
succeeds, the transition is applied whatever the current status; when the
id is missing or the gateway reports an error, the endpoint fails and the
local row is unchanged. -/
theorem lifecycle_endpoints_no_status_guard (c : Customer) (g : Bool) :
    (∀ sid, c.square_subscription_id = some sid →
      ((pause_sub c true).ok = true ∧
        (pause_sub c true).user =
          { c with subscription_status := some "PAUSED" } ∧
        (pause_sub c true).logs = [⟨c.id, some sid, "PAUSE", none⟩]) ∧
      ((resume_sub c true).ok = true ∧
        (resume_sub c true).user =
          { c with subscription_status := some "ACTIVE" } ∧
        (resume_sub c true).logs = [⟨c.id, some sid, "RESUME", none⟩]) ∧
      ((cancel_sub c true).ok = true ∧
        (cancel_sub c true).user =
          { c with
            subscription_active := false,
            subscription_status := some "CANCELED" } ∧
        (cancel_sub c true).logs = [⟨c.id, some sid, "CANCEL", none⟩])) ∧
    (c.square_subscription_id = none →
      (pause_sub c g).ok = false ∧ (pause_sub c g).user = c ∧
      (resume_sub c g).ok = false ∧ (resume_sub c g).user = c ∧
      (cancel_sub c g).ok = false ∧ (cancel_sub c g).user = c) ∧
    ((pause_sub c false).ok = false ∧ (pause_sub c false).user = c ∧
      (resume_sub c false).ok = false ∧ (resume_sub c false).user = c ∧
      (cancel_sub c false).ok = false ∧ (cancel_sub c false).user = c) := by
  refine ⟨?_, ?_, ?_⟩
  · intro sid hsid
    simp [pause_sub, resume_sub, cancel_sub, hsid]
  · intro hnone
    simp [pause_sub, resume_sub, cancel_sub, hnone]
  · cases h : c.square_subscription_id <;>
      simp [pause_sub, resume_sub, cancel_sub, h]

/-- Witness for C4 at a CANCELED customer with a subscription id and at a
customer without one. -/
theorem lifecycle_endpoints_no_status_guard_witness :
    ((Customer.mk 41 "g@x.y" (some "SQ") (some "s41") true (some "CANCELED")
        none none none 0 false).square_subscription_id = some "s41" ∧
      ((pause_sub (Customer.mk 41 "g@x.y" (some "SQ") (some "s41") true
          (some "CANCELED") none none none 0 false) true).ok = true ∧
        (pause_sub (Customer.mk 41 "g@x.y" (some "SQ") (some "s41") true
            (some "CANCELED") none none none 0 false) true).user =
          { Customer.mk 41 "g@x.y" (some "SQ") (some "s41") true
              (some "CANCELED") none none none 0 false with
            subscription_status := some "PAUSED" } ∧
        (pause_sub (Customer.mk 41 "g@x.y" (some "SQ") (some "s41") true
            (some "CANCELED") none none none 0 false) true).logs =
          [⟨41, some "s41", "PAUSE", none⟩]) ∧
      ((resume_sub (Customer.mk 41 "g@x.y" (some "SQ") (some "s41") true
          (some "CANCELED") none none none 0 false) true).ok = true ∧
        (resume_sub (Customer.mk 41 "g@x.y" (some "SQ") (some "s41") true
            (some "CANCELED") none none none 0 false) true).user =
          { Customer.mk 41 "g@x.y" (some "SQ") (some "s41") true
              (some "CANCELED") none none none 0 false with
            subscription_status := some "ACTIVE" } ∧
        (resume_sub (Customer.mk 41 "g@x.y" (some "SQ") (some "s41") true
            (some "CANCELED") none none none 0 false) true).logs =
          [⟨41, some "s41", "RESUME", none⟩]) ∧
      ((cancel_sub (Customer.mk 41 "g@x.y" (some "SQ") (some "s41") true
          (some "CANCELED") none none none 0 false) true).ok = true ∧
        (cancel_sub (Customer.mk 41 "g@x.y" (some "SQ") (some "s41") true
            (some "CANCELED") none none none 0 false) true).user =
          { Customer.mk 41 "g@x.y" (some "SQ") (some "s41") true
              (some "CANCELED") none none none 0 false with
            subscription_active := false,
            subscription_status := some "CANCELED" } ∧
        (cancel_sub (Customer.mk 41 "g@x.y" (some "SQ") (some "s41") true
            (some "CANCELED") none none none 0 false) true).logs =
          [⟨41, some "s41", "CANCEL", none⟩])) ∧
    ((Customer.mk 42 "h@x.y" (some "SQ") none true (some "ACTIVE") none none
        none 0 false).square_subscription_id = none ∧
      (pause_sub (Customer.mk 42 "h@x.y" (some "SQ") none true (some "ACTIVE")
          none none none 0 false) true).ok = false ∧
      (pause_sub (Customer.mk 42 "h@x.y" (some "SQ") none true (some "ACTIVE")
          none none none 0 false) true).user =
        Customer.mk 42 "h@x.y" (some "SQ") none true (some "ACTIVE") none none
          none 0 false ∧
      (resume_sub (Customer.mk 42 "h@x.y" (some "SQ") none true (some "ACTIVE")
          none none none 0 false) true).ok = false ∧
      (resume_sub (Customer.mk 42 "h@x.y" (some "SQ") none true (some "ACTIVE")
          none none none 0 false) true).user =
        Customer.mk 42 "h@x.y" (some "SQ") none true (some "ACTIVE") none none
          none 0 false ∧
      (cancel_sub (Customer.mk 42 "h@x.y" (some "SQ") none true (some "ACTIVE")
          none none none 0 false) true).ok = false ∧
      (cancel_sub (Customer.mk 42 "h@x.y" (some "SQ") none true (some "ACTIVE")
          none none none 0 false) true).user =
        Customer.mk 42 "h@x.y" (some "SQ") none true (some "ACTIVE") none none
          none 0 false) :=
  ⟨⟨rfl,
    (lifecycle_endpoints_no_status_guard
      (Customer.mk 41 "g@x.y" (some "SQ") (some "s41") true (some "CANCELED")
        none none none 0 false) true).1 "s41" rfl⟩,
    ⟨rfl,
      (lifecycle_endpoints_no_status_guard
        (Customer.mk 42 "h@x.y" (some "SQ") none true (some "ACTIVE") none none
          none 0 false) true).2.1 rfl⟩⟩

theorem activate_charge_amount (db : Db) (prices : String → ℚ) (gw : Gateway)
    (now : DateYMD) (request : ActivateSubscriptionRequest) (c : Customer) :
    (activate_sub db prices gw now request (some c)).charge_amount =
      if ((c.square_customer_id.getD "") == "") = true then none
      else if (oneTimeAddons db request).isEmpty then none
      else some (((oneTimeAddons db request).map (fun a => a.price)).sum +
        (((oneTimeAddons db request).map (fun a => a.price)).sum * 0.040 +
          0.10)) := by
  by_cases hsq : ((c.square_customer_id.getD "") == "") = true
  · simp [activate_sub, hsq]
  · have hsq' : ((c.square_customer_id.getD "") == "") = false := by
      simpa using hsq
    cases hot : (oneTimeAddons db request).isEmpty <;>
      cases hpay : gw.payment_ok <;>
      cases hprep : prepare_subscription_order_items db prices
        request.plan_variation_id (recurringAddonIds db request) <;>
      cases hord : gw.order_ok <;>
      cases hsub : gw.subscription_ok <;>
      simp [activate_sub, hsq', hot, hpay, hprep, hord, hsub]

/-- C9: when one-time add-ons are present and their immediate charge
fails, activate_sub aborts with an error before creating any order
template or attempting any subscription call, inserting no rows and
leaving the customer row byte-for-byte unchanged. -/
theorem one_time_charge_failure_aborts (db : Db) (prices : String → ℚ)
    (gw : Gateway) (now : DateYMD) (request : ActivateSubscriptionRequest)
    (c : Customer)
    (hot : (oneTimeAddons db request).isEmpty = false)
    (hpay : gw.payment_ok = false)
    (hsq : ((c.square_customer_id.getD "") == "") = false) :
    activate_sub db prices gw now request (some c) =
      { ok := false, error := some "One-time addon payment failed",
        customer := some c,
        charge_amount :=
          some (((oneTimeAddons db request).map (fun a => a.price)).sum +
            (((oneTimeAddons db request).map (fun a => a.price)).sum * 0.040 +
              0.10)) } := by
  simp [activate_sub, hsq, hot, hpay]

/-- Witness for C9: a concrete request with one one-time add-on whose
charge the gateway declines. -/
theorem one_time_charge_failure_aborts_witness :
    (oneTimeAddons
        ⟨[⟨1, "Turf", 100, "PV"⟩],
          [⟨"PLAN", "Turf", "PLANVAR", 0, "RECURRING"⟩,
           ⟨"ADDON", "Cleanup", "O1", 10.15, "ONE_TIME"⟩], []⟩
        (ActivateSubscriptionRequest.mk "PV" none "card" none none none
          (some ["O1"]))).isEmpty = false ∧
    (Gateway.mk false "" true "ord1" true "sub1").payment_ok = false ∧
    (((Customer.mk 9 "c9@x.y" (some "SQ") none false none none none none 0
        false).square_customer_id.getD "") == "") = false ∧
    activate_sub
        ⟨[⟨1, "Turf", 100, "PV"⟩],
          [⟨"PLAN", "Turf", "PLANVAR", 0, "RECURRING"⟩,
           ⟨"ADDON", "Cleanup", "O1", 10.15, "ONE_TIME"⟩], []⟩
        (fun _ => 0) (Gateway.mk false "" true "ord1" true "sub1")
        ⟨2025, 6, 1⟩
        (ActivateSubscriptionRequest.mk "PV" none "card" none none none
          (some ["O1"]))
        (some (Customer.mk 9 "c9@x.y" (some "SQ") none false none none none
          none 0 false)) =
      { ok := false, error := some "One-time addon payment failed",
        customer := some (Customer.mk 9 "c9@x.y" (some "SQ") none false none
          none none none 0 false),
        charge_amount :=
          some (((oneTimeAddons
              ⟨[⟨1, "Turf", 100, "PV"⟩],
                [⟨"PLAN", "Turf", "PLANVAR", 0, "RECURRING"⟩,
                 ⟨"ADDON", "Cleanup", "O1", 10.15, "ONE_TIME"⟩], []⟩
              (ActivateSubscriptionRequest.mk "PV" none "card" none none none
                (some ["O1"]))).map (fun a => a.price)).sum +
            (((oneTimeAddons
                ⟨[⟨1, "Turf", 100, "PV"⟩],
                  [⟨"PLAN", "Turf", "PLANVAR", 0, "RECURRING"⟩,
                   ⟨"ADDON", "Cleanup", "O1", 10.15, "ONE_TIME"⟩], []⟩
                (ActivateSubscriptionRequest.mk "PV" none "card" none none none
                  (some ["O1"]))).map (fun a => a.price)).sum * 0.040 +
              0.10)) } :=
  ⟨by decide, by decide, by decide,
    one_time_charge_failure_aborts
      ⟨[⟨1, "Turf", 100, "PV"⟩],
        [⟨"PLAN", "Turf", "PLANVAR", 0, "RECURRING"⟩,
         ⟨"ADDON", "Cleanup", "O1", 10.15, "ONE_TIME"⟩], []⟩
      (fun _ => 0) (Gateway.mk false "" true "ord1" true "sub1") ⟨2025, 6, 1⟩
      (ActivateSubscriptionRequest.mk "PV" none "card" none none none
        (some ["O1"]))
      (Customer.mk 9 "c9@x.y" (some "SQ") none false none none none none 0
        false)
      (by decide) (by decide) (by decide)⟩

/-- C1 counterexample: a successful activation with one recurring and one
one-time add-on persists selected_addons as the full requested list,
not the recurring subset (which is just R1). -/
theorem activate_persists_one_time_addons_cex :
    (activate_sub
        ⟨[⟨1, "Turf", 100, "PV"⟩],
          [⟨"PLAN", "Turf", "PLANVAR", 0, "RECURRING"⟩,
           ⟨"ADDON", "Aeration", "R1", 20, "RECURRING"⟩,
           ⟨"ADDON", "Cleanup", "O1", 10.15, "ONE_TIME"⟩], []⟩
        (fun _ => 0) ⟨true, "pay1", true, "ord1", true, "sub1"⟩ ⟨2025, 6, 1⟩
        (ActivateSubscriptionRequest.mk "PV" none "card" none none none
          (some ["R1", "O1"]))
        (some (Customer.mk 1 "a@b.c" (some "SQ") none false none none none
          none 0 false))).ok = true ∧
    (activate_sub
        ⟨[⟨1, "Turf", 100, "PV"⟩],
          [⟨"PLAN", "Turf", "PLANVAR", 0, "RECURRING"⟩,
           ⟨"ADDON", "Aeration", "R1", 20, "RECURRING"⟩,
           ⟨"ADDON", "Cleanup", "O1", 10.15, "ONE_TIME"⟩], []⟩
        (fun _ => 0) ⟨true, "pay1", true, "ord1", true, "sub1"⟩ ⟨2025, 6, 1⟩
        (ActivateSubscriptionRequest.mk "PV" none "card" none none none
          (some ["R1", "O1"]))
        (some (Customer.mk 1 "a@b.c" (some "SQ") none false none none none
          none 0 false))).customer.map Customer.selected_addons =
      some (some ["R1", "O1"]) ∧
    recurringAddonIds
        ⟨[⟨1, "Turf", 100, "PV"⟩],
          [⟨"PLAN", "Turf", "PLANVAR", 0, "RECURRING"⟩,
           ⟨"ADDON", "Aeration", "R1", 20, "RECURRING"⟩,
           ⟨"ADDON", "Cleanup", "O1", 10.15, "ONE_TIME"⟩], []⟩
        (ActivateSubscriptionRequest.mk "PV" none "card" none none none
          (some ["R1", "O1"])) = ["R1"] := by
  decide

/-- C1 amended: every successful activate_sub run persists
selected_addons as exactly the request's full addon list (one-time ids
included), never the recurring subset alone. -/
theorem activate_success_stores_requested_addons (db : Db)
    (prices : String → ℚ) (gw : Gateway) (now : DateYMD)
    (request : ActivateSubscriptionRequest) (customer : Option Customer)
    (h : (activate_sub db prices gw now request customer).ok = true) :
    (activate_sub db prices gw now request customer).customer.map
      Customer.selected_addons = some request.addons := by
  cases customer with
  | none => simp [activate_sub] at h
  | some c =>
    by_cases hsq : ((c.square_customer_id.getD "") == "") = true
    · simp [activate_sub, hsq] at h
    · have hsq' : ((c.square_customer_id.getD "") == "") = false := by
        simpa using hsq
      cases hot : (oneTimeAddons db request).isEmpty <;>
        cases hpay : gw.payment_ok <;>
        cases hprep : prepare_subscription_order_items db prices
          request.plan_variation_id (recurringAddonIds db request) <;>
        cases hord : gw.order_ok <;>
        cases hsub : gw.subscription_ok <;>
        simp [activate_sub, hsq', hot, hpay, hprep, hord, hsub] at h ⊢

/-- Witness for C1 at a concrete successful activation run. -/
theorem activate_success_stores_requested_addons_witness :
    (activate_sub
        ⟨[⟨1, "Turf", 100, "PV"⟩],
          [⟨"PLAN", "Turf", "PLANVAR", 0, "RECURRING"⟩,
           ⟨"ADDON", "Aeration", "R1", 20, "RECURRING"⟩,
           ⟨"ADDON", "Cleanup", "O1", 10.15, "ONE_TIME"⟩], []⟩
        (fun _ => 0) ⟨true, "pay2", true, "ord2", true, "sub2"⟩ ⟨2025, 7, 1⟩
        (ActivateSubscriptionRequest.mk "PV" none "card" none none none
          (some ["R1", "O1"]))
        (some (Customer.mk 11 "w1@b.c" (some "SQ") none false none none none
          none 0 false))).ok = true ∧
    (activate_sub
        ⟨[⟨1, "Turf", 100, "PV"⟩],
          [⟨"PLAN", "Turf", "PLANVAR", 0, "RECURRING"⟩,
           ⟨"ADDON", "Aeration", "R1", 20, "RECURRING"⟩,
           ⟨"ADDON", "Cleanup", "O1", 10.15, "ONE_TIME"⟩], []⟩
        (fun _ => 0) ⟨true, "pay2", true, "ord2", true, "sub2"⟩ ⟨2025, 7, 1⟩
        (ActivateSubscriptionRequest.mk "PV" none "card" none none none
          (some ["R1", "O1"]))
        (some (Customer.mk 11 "w1@b.c" (some "SQ") none false none none none
          none 0 false))).customer.map Customer.selected_addons =
      some (some ["R1", "O1"]) :=
  ⟨by decide,
    activate_success_stores_requested_addons
      ⟨[⟨1, "Turf", 100, "PV"⟩],
        [⟨"PLAN", "Turf", "PLANVAR", 0, "RECURRING"⟩,
         ⟨"ADDON", "Aeration", "R1", 20, "RECURRING"⟩,
         ⟨"ADDON", "Cleanup", "O1", 10.15, "ONE_TIME"⟩], []⟩
      (fun _ => 0) ⟨true, "pay2", true, "ord2", true, "sub2"⟩ ⟨2025, 7, 1⟩
      (ActivateSubscriptionRequest.mk "PV" none "card" none none none
        (some ["R1", "O1"]))
      (some (Customer.mk 11 "w1@b.c" (some "SQ") none false none none none
        none 0 false))
      (by decide)⟩

/-- C6 counterexample: with a single one-time add-on priced 10.15, the
immediate charge amount is 10.15 + (10.15 * 0.04 + 0.10) = 10.656,
whereas the claimed formula subtotal + round(subtotal * 0.04 + 0.10, 2)
gives 10.15 + 0.51 = 10.66; the one-time path never rounds its fee. -/
theorem one_time_charge_fee_unrounded_cex :
    (activate_sub
        ⟨[⟨1, "Turf", 100, "PV"⟩],
          [⟨"PLAN", "Turf", "PLANVAR", 0, "RECURRING"⟩,
           ⟨"ADDON", "Cleanup", "O1", 10.15, "ONE_TIME"⟩], []⟩
        (fun _ => 0) ⟨true, "pay1", true, "ord1", true, "sub1"⟩ ⟨2025, 6, 1⟩
        (ActivateSubscriptionRequest.mk "PV" none "card" none none none
          (some ["O1"]))
        (some (Customer.mk 6 "c6@x.y" (some "SQ") none false none none none
          none 0 false))).charge_amount = some (1332 / 125) ∧
    ((oneTimeAddons
        ⟨[⟨1, "Turf", 100, "PV"⟩],
          [⟨"PLAN", "Turf", "PLANVAR", 0, "RECURRING"⟩,
           ⟨"ADDON", "Cleanup", "O1", 10.15, "ONE_TIME"⟩], []⟩
        (ActivateSubscriptionRequest.mk "PV" none "card" none none none
          (some ["O1"]))).map (fun a => a.price)).sum = 10.15 ∧
    pyRound2 ((10.15 : ℚ) * 0.040 + 0.10) = 51 / 100 ∧
    ¬((1332 / 125 : ℚ) = 10.15 + 51 / 100) := by
  refine ⟨?_, ?_, ?_, ?_⟩
  · rw [activate_charge_amount]
    norm_num [oneTimeAddons, requestDbAddons, List.filter]
    decide
  · norm_num [oneTimeAddons, requestDbAddons, List.filter]
  · norm_num [pyRound2, roundHalfEvenZ, Rat.floor_def']
  · norm_num

/-- C6 amended: the recurring-order assembler computes its fee as
round(subtotal * 0.04 + 0.10, 2) and its total as subtotal + fee, so
equal inputs yield the same fee to the cent; the immediate one-time
charge, however, uses the unrounded fee: its amount is the one-time
subtotal plus exactly subtotal * 0.04 + 0.10 with no rounding. -/
theorem processing_fee_formulas (db : Db) (prices : String → ℚ)
    (pvid : String) (addons : List String) (gw : Gateway) (now : DateYMD)
    (request : ActivateSubscriptionRequest) (c : Customer) :
    (match prepare_subscription_order_items db prices pvid addons with
     | PrepResult.failure _ => True
     | PrepResult.success data =>
         data.processing_fee = pyRound2 (data.subtotal * 0.040 + 0.10) ∧
         data.total_amount = data.subtotal + data.processing_fee) ∧
    ((oneTimeAddons db request).isEmpty = false →
      ((c.square_customer_id.getD "") == "") = false →
      (activate_sub db prices gw now request (some c)).charge_amount =
        some (((oneTimeAddons db request).map (fun a => a.price)).sum +
          (((oneTimeAddons db request).map (fun a => a.price)).sum * 0.040 +
            0.10))) := by
  refine ⟨?_, ?_⟩
  · cases h1 : db.plans.find? (fun p => p.plan_variation_id == pvid) with
    | none => simp [prepare_subscription_order_items, h1]
    | some p =>
      cases h2 : db.items.find?
          (fun i => i.item_type == "PLAN" && i.name == p.plan_name) with
      | none => simp [prepare_subscription_order_items, h1, h2]
      | some it => simp [prepare_subscription_order_items, h1, h2]
  · intro hot hsq
    rw [activate_charge_amount]
    simp [hsq, hot]

/-- Witness for C6: the recurring formula at a concrete catalog and the
unrounded one-time charge at a concrete request. -/
theorem processing_fee_formulas_witness :
    (match prepare_subscription_order_items
        ⟨[⟨1, "Turf", 100, "PV"⟩],
          [⟨"PLAN", "Turf", "PLANVAR", 0, "RECURRING"⟩,
           ⟨"ADDON", "Cleanup", "O1", 10.15, "ONE_TIME"⟩], []⟩
        (fun _ => 0) "PV" [] with
     | PrepResult.failure _ => True
     | PrepResult.success data =>
         data.processing_fee = pyRound2 (data.subtotal * 0.040 + 0.10) ∧
         data.total_amount = data.subtotal + data.processing_fee) ∧
    (oneTimeAddons
        ⟨[⟨1, "Turf", 100, "PV"⟩],
          [⟨"PLAN", "Turf", "PLANVAR", 0, "RECURRING"⟩,
           ⟨"ADDON", "Cleanup", "O1", 10.15, "ONE_TIME"⟩], []⟩
        (ActivateSubscriptionRequest.mk "PV" none "card" none none none
          (some ["O1"]))).isEmpty = false ∧
    (((Customer.mk 61 "c61@x.y" (some "SQ") none false none none none none 0
        false).square_customer_id.getD "") == "") = false ∧
    (activate_sub
        ⟨[⟨1, "Turf", 100, "PV"⟩],
          [⟨"PLAN", "Turf", "PLANVAR", 0, "RECURRING"⟩,
           ⟨"ADDON", "Cleanup", "O1", 10.15, "ONE_TIME"⟩], []⟩
        (fun _ => 0) ⟨true, "pay1", true, "ord1", true, "sub1"⟩ ⟨2025, 6, 1⟩
        (ActivateSubscriptionRequest.mk "PV" none "card" none none none
          (some ["O1"]))
        (some (Customer.mk 61 "c61@x.y" (some "SQ") none false none none none
          none 0 false))).charge_amount =
      some (((oneTimeAddons
          ⟨[⟨1, "Turf", 100, "PV"⟩],
            [⟨"PLAN", "Turf", "PLANVAR", 0, "RECURRING"⟩,
             ⟨"ADDON", "Cleanup", "O1", 10.15, "ONE_TIME"⟩], []⟩
          (ActivateSubscriptionRequest.mk "PV" none "card" none none none
            (some ["O1"]))).map (fun a => a.price)).sum +
        (((oneTimeAddons
            ⟨[⟨1, "Turf", 100, "PV"⟩],
              [⟨"PLAN", "Turf", "PLANVAR", 0, "RECURRING"⟩,
               ⟨"ADDON", "Cleanup", "O1", 10.15, "ONE_TIME"⟩], []⟩
            (ActivateSubscriptionRequest.mk "PV" none "card" none none none
              (some ["O1"]))).map (fun a => a.price)).sum * 0.040 + 0.10)) :=
  ⟨(processing_fee_formulas
      ⟨[⟨1, "Turf", 100, "PV"⟩],
        [⟨"PLAN", "Turf", "PLANVAR", 0, "RECURRING"⟩,
         ⟨"ADDON", "Cleanup", "O1", 10.15, "ONE_TIME"⟩], []⟩
      (fun _ => 0) "PV" [] ⟨true, "pay1", true, "ord1", true, "sub1"⟩
      ⟨2025, 6, 1⟩
      (ActivateSubscriptionRequest.mk "PV" none "card" none none none
        (some ["O1"]))
      (Customer.mk 61 "c61@x.y" (some "SQ") none false none none none none 0
        false)).1,
    by decide, by decide,
    (processing_fee_formulas
      ⟨[⟨1, "Turf", 100, "PV"⟩],
        [⟨"PLAN", "Turf", "PLANVAR", 0, "RECURRING"⟩,
         ⟨"ADDON", "Cleanup", "O1", 10.15, "ONE_TIME"⟩], []⟩
      (fun _ => 0) "PV" [] ⟨true, "pay1", true, "ord1", true, "sub1"⟩
      ⟨2025, 6, 1⟩
      (ActivateSubscriptionRequest.mk "PV" none "card" none none none
        (some ["O1"]))
      (Customer.mk 61 "c61@x.y" (some "SQ") none false none none none none 0
        false)).2 (by decide) (by decide)⟩

theorem scheduler_step_keys (plans : List SubscriptionPlan)
    (pok rok : String → Bool) (dry : Bool) (sched : SubscriptionPlanSchedule)
    (act : Bool) (c : Customer) :
    (scheduler_customer_step plans pok rok dry sched act c).customer.plan_id =
        c.plan_id ∧
      (scheduler_customer_step plans pok rok dry sched act
          c).customer.square_subscription_id = c.square_subscription_id := by
  cases h1 : c.square_subscription_id with
  | none => simp [scheduler_customer_step, h1]
  | some sid =>
    cases h2 : customerPlanName plans c.plan_id with
    | none => simp [scheduler_customer_step, h1, h2]
    | some cp =>
      simp only [scheduler_customer_step, h1, h2]
      split_ifs <;> simp_all [h1]

theorem scheduler_matches_congr (plans : List SubscriptionPlan)
    (sched : SubscriptionPlanSchedule) {c c' : Customer}
    (h1 : c'.plan_id = c.plan_id)
    (h2 : c'.square_subscription_id = c.square_subscription_id) :
    scheduler_matches plans sched c' = scheduler_matches plans sched c := by
  unfold scheduler_matches
  rw [h1, h2]

theorem scheduler_step_no_match (plans : List SubscriptionPlan)
    (pok rok : String → Bool) (dry : Bool) (sched : SubscriptionPlanSchedule)
    (act : Bool) (c : Customer)
    (hm : scheduler_matches plans sched c = false) :
    scheduler_customer_step plans pok rok dry sched act c = ⟨c, [], [], []⟩ := by
  cases h1 : c.square_subscription_id with
  | none => simp [scheduler_customer_step, h1]
  | some sid =>
    cases h2 : customerPlanName plans c.plan_id with
    | none => simp [scheduler_customer_step, h1, h2]
    | some cp =>
      simp only [scheduler_matches, h1, h2, Option.isSome_some,
        Bool.true_and] at hm
      by_cases he : (cp == "") = true
      · simp [scheduler_customer_step, h1, h2, he]
      · have he' : (cp == "") = false := by simpa using he
        have hin : pyInLower sched.plan_name cp = false := by
          simpa [he'] using hm
        simp [scheduler_customer_step, h1, h2, he', hin]

theorem scheduler_step_stable (plans : List SubscriptionPlan)
    (sched : SubscriptionPlanSchedule) (act : Bool) (c : Customer) :
    scheduler_customer_step plans (fun _ => true) (fun _ => true) false sched
        act ((scheduler_customer_step plans (fun _ => true) (fun _ => true)
          false sched act c).customer) =
      ⟨(scheduler_customer_step plans (fun _ => true) (fun _ => true) false
          sched act c).customer, [], [], []⟩ := by
  cases h1 : c.square_subscription_id with
  | none => simp [scheduler_customer_step, h1]
  | some sid =>
    cases h2 : customerPlanName plans c.plan_id with
    | none => simp [scheduler_customer_step, h1, h2]
    | some cp =>
      by_cases he : (cp == "") = true
      · simp [scheduler_customer_step, h1, h2, he]
      · have he' : (cp == "") = false := by simpa using he
        by_cases hin : pyInLower sched.plan_name cp = true
        · cases act <;>
            by_cases hA : c.subscription_status = some "ACTIVE" <;>
            by_cases hP : c.subscription_status = some "PAUSED" <;>
            by_cases hb : c.subscription_paused_by_schedule = true <;>
            simp_all [scheduler_customer_step, h1, h2, he', hin]
        · have hin' : pyInLower sched.plan_name cp = false := by
            simpa using hin
          simp [scheduler_customer_step, h1, h2, he', hin']

theorem scheduler_schedule_pass_customers (plans : List SubscriptionPlan)
    (pok rok : String → Bool) (dry : Bool) (sched : SubscriptionPlanSchedule)
    (act : Bool) :
    ∀ cs : List Customer,
      (scheduler_schedule_pass plans pok rok dry sched act cs).customers =
        cs.map (fun c =>
          (scheduler_customer_step plans pok rok dry sched act c).customer) := by
  intro cs
  induction cs with
  | nil => simp [scheduler_schedule_pass]
  | cons c rest ih => simp [scheduler_schedule_pass, ih]

theorem scheduler_schedule_pass_noop (plans : List SubscriptionPlan)
    (pok rok : String → Bool) (dry : Bool) (sched : SubscriptionPlanSchedule)
    (act : Bool) :
    ∀ cs : List Customer,
      (∀ c ∈ cs, scheduler_customer_step plans pok rok dry sched act c =
        ⟨c, [], [], []⟩) →
      scheduler_schedule_pass plans pok rok dry sched act cs =
        ⟨cs, [], [], []⟩ := by
  intro cs
  induction cs with
  | nil => intro _; simp [scheduler_schedule_pass]
  | cons c rest ih =>
    intro h
    have hc := h c (by simp)
    have hr := ih (fun x hx => h x (by simp [hx]))
    simp [scheduler_schedule_pass, hc, hr]

theorem scheduler_run_customers (plans : List SubscriptionPlan)
    (pok rok : String → Bool) (dry : Bool) (month : ℕ) :
    ∀ (schedules : List SubscriptionPlanSchedule) (cs : List Customer),
      (process_monthly_subscription_schedules plans pok rok dry month
          schedules cs).customers =
        cs.map (fun c =>
          scheduler_customer_fold plans pok rok dry month schedules c) := by
  intro schedules
  induction schedules with
  | nil =>
    intro cs
    simp [process_monthly_subscription_schedules, scheduler_customer_fold]
  | cons s rest ih =>
    intro cs
    simp only [process_monthly_subscription_schedules,
      scheduler_schedule_pass_customers, ih, List.map_map]
    simp [scheduler_customer_fold, Function.comp]

theorem scheduler_run_noop (plans : List SubscriptionPlan)
    (pok rok : String → Bool) (dry : Bool) (month : ℕ) :
    ∀ (schedules : List SubscriptionPlanSchedule) (cs : List Customer),
      (∀ c ∈ cs, ∀ s ∈ schedules,
        scheduler_customer_step plans pok rok dry s
          (is_plan_active_for_month (some s) month) c = ⟨c, [], [], []⟩) →
      process_monthly_subscription_schedules plans pok rok dry month
          schedules cs = ⟨cs, [], [], []⟩ := by
  intro schedules
  induction schedules with
  | nil =>
    intro cs _
    simp [process_monthly_subscription_schedules]
  | cons s rest ih =>
    intro cs h
    have hpass := scheduler_schedule_pass_noop plans pok rok dry s
      (is_plan_active_for_month (some s) month) cs
      (fun c hc => h c hc s (by simp))
    have hrest := ih cs (fun c hc s' hs' => h c hc s' (by simp [hs']))
    simp [process_monthly_subscription_schedules, hpass, hrest]

theorem scheduler_fold_keys (plans : List SubscriptionPlan)
    (pok rok : String → Bool) (dry : Bool) (month : ℕ) :
    ∀ (schedules : List SubscriptionPlanSchedule) (c : Customer),
      (scheduler_customer_fold plans pok rok dry month
          schedules c).plan_id = c.plan_id ∧
        (scheduler_customer_fold plans pok rok dry month
          schedules c).square_subscription_id = c.square_subscription_id := by
  intro schedules
  induction schedules with
  | nil => intro c; simp [scheduler_customer_fold]
  | cons s rest ih =>
    intro c
    have hstep := scheduler_step_keys plans pok rok dry s
      (is_plan_active_for_month (some s) month) c
    have hrest := ih ((scheduler_customer_step plans pok rok dry s
      (is_plan_active_for_month (some s) month) c).customer)
    constructor
    · rw [scheduler_customer_fold, List.foldl_cons]
      rw [scheduler_customer_fold] at hrest
      rw [hrest.1, hstep.1]
    · rw [scheduler_customer_fold, List.foldl_cons]
      rw [scheduler_customer_fold] at hrest
      rw [hrest.2, hstep.2]

theorem scheduler_fold_no_match (plans : List SubscriptionPlan)
    (month : ℕ) :
    ∀ (schedules : List SubscriptionPlanSchedule) (c : Customer),
      (∀ s ∈ schedules, scheduler_matches plans s c = false) →
      scheduler_customer_fold plans (fun _ => true) (fun _ => true) false
        month schedules c = c := by
  intro schedules
  induction schedules with
  | nil => intro c _; simp [scheduler_customer_fold]
  | cons s rest ih =>
    intro c h
    have hs := scheduler_step_no_match plans (fun _ => true) (fun _ => true)
      false s (is_plan_active_for_month (some s) month) c (h s (by simp))
    rw [scheduler_customer_fold, List.foldl_cons, hs]
    exact ih c (fun s' hs' => h s' (by simp [hs']))

theorem scheduler_fold_stable (plans : List SubscriptionPlan) (month : ℕ) :
    ∀ (schedules : List SubscriptionPlanSchedule) (c : Customer),
      (schedules.countP (fun s => scheduler_matches plans s c)) ≤ 1 →
      ∀ s ∈ schedules,
        scheduler_customer_step plans (fun _ => true) (fun _ => true) false s
            (is_plan_active_for_month (some s) month)
            (scheduler_customer_fold plans (fun _ => true) (fun _ => true)
              false month schedules c) =
          ⟨scheduler_customer_fold plans (fun _ => true) (fun _ => true) false
            month schedules c, [], [], []⟩ := by
  intro schedules
  induction schedules with
  | nil => intro c _ s hs; exact absurd hs (List.not_mem_nil s)
  | cons s0 rest ih =>
    intro c hcount s hs
    have hfoldcons : scheduler_customer_fold plans (fun _ => true)
        (fun _ => true) false month (s0 :: rest) c =
      scheduler_customer_fold plans (fun _ => true) (fun _ => true) false
        month rest ((scheduler_customer_step plans (fun _ => true)
          (fun _ => true) false s0 (is_plan_active_for_month (some s0) month)
          c).customer) := rfl
    by_cases hm : scheduler_matches plans s0 c = true
    · have hc0 : rest.countP (fun s => scheduler_matches plans s c) = 0 := by
        rw [List.countP_cons] at hcount
        simp only [hm, if_true] at hcount
        omega
      have hnom : ∀ s' ∈ rest, scheduler_matches plans s' c = false := by
        intro s' hs'
        have := (List.countP_eq_zero.mp hc0) s' hs'
        simpa using this
      have hkeys := scheduler_step_keys plans (fun _ => true) (fun _ => true)
        false s0 (is_plan_active_for_month (some s0) month) c
      have hnom1 : ∀ s' ∈ rest, scheduler_matches plans s'
          ((scheduler_customer_step plans (fun _ => true) (fun _ => true)
            false s0 (is_plan_active_for_month (some s0) month)
            c).customer) = false := by
        intro s' hs'
        rw [scheduler_matches_congr plans s' hkeys.1 hkeys.2]
        exact hnom s' hs'
      have hfold1 := scheduler_fold_no_match plans month rest
        ((scheduler_customer_step plans (fun _ => true) (fun _ => true) false
          s0 (is_plan_active_for_month (some s0) month) c).customer) hnom1
      rw [hfoldcons, hfold1]
      rcases List.mem_cons.mp hs with rfl | hsrest
      · exact scheduler_step_stable plans s
          (is_plan_active_for_month (some s) month) c
      · exact scheduler_step_no_match plans (fun _ => true) (fun _ => true)
          false s (is_plan_active_for_month (some s) month) _
          (hnom1 s hsrest)
    · have hm' : scheduler_matches plans s0 c = false := by simpa using hm
      have hstep0 := scheduler_step_no_match plans (fun _ => true)
        (fun _ => true) false s0 (is_plan_active_for_month (some s0) month) c
        hm'
      have hfold : scheduler_customer_fold plans (fun _ => true)
          (fun _ => true) false month (s0 :: rest) c =
        scheduler_customer_fold plans (fun _ => true) (fun _ => true) false
          month rest c := by
        rw [hfoldcons, hstep0]
      have hcount' : rest.countP (fun s => scheduler_matches plans s c) ≤ 1 := by
        rw [List.countP_cons] at hcount
        simp only [hm', Bool.false_eq_true, if_false] at hcount
        omega
      rcases List.mem_cons.mp hs with rfl | hsrest
      · have hkeys := scheduler_fold_keys plans (fun _ => true) (fun _ => true)
          false month rest c
        rw [hfold]
        apply scheduler_step_no_match
        rw [scheduler_matches_congr plans s hkeys.1 hkeys.2]
        exact hm'
      · rw [hfold]
        exact ih c hcount' s hsrest

/-- C10 amended: when every customer's resolved plan name matches at
most one schedule, the monthly scheduler is idempotent within a month —
with all gateway calls succeeding and no intervening state change, a
second run over the first run's customer table is a complete no-op: it
performs zero pause or resume transitions (paused, resumed and errors
lists all empty) and leaves every customer row unchanged.  With
overlapping substring-matched schedules of conflicting activity, the
second run instead repeats the first run's transitions, as the
counterexample shows. -/
theorem scheduler_idempotent_unique_match (plans : List SubscriptionPlan)
    (month : ℕ) (schedules : List SubscriptionPlanSchedule)
    (cs : List Customer)
    (H : ∀ c ∈ cs,
      (schedules.countP (fun s => scheduler_matches plans s c)) ≤ 1) :
    process_monthly_subscription_schedules plans (fun _ => true)
        (fun _ => true) false month schedules
        (process_monthly_subscription_schedules plans (fun _ => true)
          (fun _ => true) false month schedules cs).customers =
      ⟨(process_monthly_subscription_schedules plans (fun _ => true)
          (fun _ => true) false month schedules cs).customers,
        [], [], []⟩ := by
  apply scheduler_run_noop
  intro c' hc' s hs
  rw [scheduler_run_customers] at hc'
  rcases List.mem_map.mp hc' with ⟨c, hc, rfl⟩
  exact scheduler_fold_stable plans month schedules c (H c hc) s hs

/-- C10 counterexample: a customer whose plan name "summer deluxe"
substring-matches two schedules with conflicting activity in March
(summer: months 6-8, inactive; summer deluxe: months 1-12, active) is
paused by the first schedule and resumed by the second in the same run,
ending in its original state; running the scheduler a second time on the
unchanged state therefore performs the same pause and resume transitions
again — its paused and resumed lists are not empty. -/
theorem scheduler_second_run_repeats_transitions :
    (process_monthly_subscription_schedules [] (fun _ => true) (fun _ => true)
        false 3 [⟨"summer", 6, 8⟩, ⟨"summer deluxe", 1, 12⟩]
        [Customer.mk 10 "s@x.y" (some "SQ") (some "s1") true (some "ACTIVE")
          (some "summer deluxe") none none 0 false]).customers =
      [Customer.mk 10 "s@x.y" (some "SQ") (some "s1") true (some "ACTIVE")
        (some "summer deluxe") none none 0 false] ∧
    (process_monthly_subscription_schedules [] (fun _ => true) (fun _ => true)
        false 3 [⟨"summer", 6, 8⟩, ⟨"summer deluxe", 1, 12⟩]
        (process_monthly_subscription_schedules [] (fun _ => true)
          (fun _ => true) false 3 [⟨"summer", 6, 8⟩, ⟨"summer deluxe", 1, 12⟩]
          [Customer.mk 10 "s@x.y" (some "SQ") (some "s1") true (some "ACTIVE")
            (some "summer deluxe") none none 0
            false]).customers).paused.length = 1 ∧
    (process_monthly_subscription_schedules [] (fun _ => true) (fun _ => true)
        false 3 [⟨"summer", 6, 8⟩, ⟨"summer deluxe", 1, 12⟩]
        (process_monthly_subscription_schedules [] (fun _ => true)
          (fun _ => true) false 3 [⟨"summer", 6, 8⟩, ⟨"summer deluxe", 1, 12⟩]
          [Customer.mk 10 "s@x.y" (some "SQ") (some "s1") true (some "ACTIVE")
            (some "summer deluxe") none none 0
            false]).customers).resumed.length = 1 := by
  decide

/-- Witness for C10 at a single schedule and a single matching customer:
the uniqueness hypothesis holds and the second run is a no-op. -/
theorem scheduler_idempotent_unique_match_witness :
    (∀ c ∈ [Customer.mk 100 "w@x.y" (some "SQ") (some "sW") true
        (some "ACTIVE") (some "turf") none none 0 false],
      (([⟨"turf", 6, 8⟩] : List SubscriptionPlanSchedule).countP
        (fun s => scheduler_matches [] s c)) ≤ 1) ∧
    process_monthly_subscription_schedules [] (fun _ => true) (fun _ => true)
        false 3 [⟨"turf", 6, 8⟩]
        (process_monthly_subscription_schedules [] (fun _ => true)
          (fun _ => true) false 3 [⟨"turf", 6, 8⟩]
          [Customer.mk 100 "w@x.y" (some "SQ") (some "sW") true
            (some "ACTIVE") (some "turf") none none 0 false]).customers =
      ⟨(process_monthly_subscription_schedules [] (fun _ => true)
          (fun _ => true) false 3 [⟨"turf", 6, 8⟩]
          [Customer.mk 100 "w@x.y" (some "SQ") (some "sW") true
            (some "ACTIVE") (some "turf") none none 0 false]).customers,
        [], [], []⟩ :=
  ⟨by decide,
    scheduler_idempotent_unique_match [] 3 [⟨"turf", 6, 8⟩]
      [Customer.mk 100 "w@x.y" (some "SQ") (some "sW") true (some "ACTIVE")
        (some "turf") none none 0 false]
      (by decide)⟩
